import Mathlib

/-!
Shallow embedding of the `cce` provider manager (`src/provider.rs`).

A `Provider` is a named credential profile; a `Config` holds an
insertion-ordered registry of providers and an optional active provider
name.  Each CLI operation of `ProviderManager` is embedded as a pure
function from the configuration and an explicit process environment to a
result record carrying the new configuration, the lines written to
standard output and to the error stream, the number of `save` calls and
the new process environment.  Fallibility is explicit:

* a propagated store failure (`config.save()?`) is the `Except.error`
  case, driven by a `saveOk` flag standing for the Config Store;
* a Rust panic (byte-slicing a string off a character boundary) makes
  `list_providers` / `check_environment` return `none`.

Colored-terminal decoration is dropped: the embedded output lines are the
plain text the program prints.
-/

namespace CCE

structure Provider where
  api_url : String
  token : String
deriving DecidableEq, Repr

structure Config where
  providers : List (String × Provider)
  current_provider : Option String
deriving DecidableEq, Repr

/-- The live process environment: the two variables the program reads and
writes.  `none` means the variable is unset. -/
structure Env where
  anthropic_auth_token : Option String
  anthropic_base_url : Option String
deriving DecidableEq, Repr

/-- Result of one manager operation: final configuration, stdout lines,
stderr lines, number of `save` calls, final process environment. -/
structure OpResult where
  config : Config
  stdout : List String
  stderr : List String
  saves : Nat
  env : Env
deriving DecidableEq, Repr

/-- Modelled from the spec: `config.rs` is not under `src/`; §3 gives
`providers` as a name-keyed mapping, so key lookup tests any entry whose
key equals the name (Rust `config.providers.contains_key(&name)`). -/
def Config.containsKey (c : Config) (name : String) : Bool :=
  c.providers.any (fun e => e.1 == name)

/-- Modelled from the spec: `config.rs` is not under `src/`; lookup of the
stored provider under a name (Rust `config.providers.get(name)`). -/
def Config.getProvider (c : Config) (name : String) : Option Provider :=
  (c.providers.find? (fun e => e.1 == name)).map (fun e => e.2)

/-- Modelled from the spec: `config.rs` is not under `src/`; §3 "adding an
existing name overwrites the prior entry (last-write-wins)" on the
insertion-ordered mapping. -/
def Config.add_provider (c : Config) (name api_url token : String) : Config :=
  if c.containsKey name then
    { c with providers :=
        c.providers.map (fun e => if e.1 == name then (name, ⟨api_url, token⟩) else e) }
  else
    { c with providers := c.providers ++ [(name, ⟨api_url, token⟩)] }

/-- Modelled from the spec: `config.rs` is not under `src/`; §4.3 "delete
the entry"; removal does not touch `current_provider`. -/
def Config.remove_provider (c : Config) (name : String) : Config :=
  { c with providers := c.providers.filter (fun e => !(e.1 == name)) }

/-- Modelled from the spec: `config.rs` is not under `src/`; §4.4 step 2
"Set current_provider = name". -/
def Config.set_current_provider (c : Config) (name : String) : Config :=
  { c with current_provider := some name }

/-- Take exactly `n` UTF-8 bytes from the front of a character list;
`none` when `n` is not a character boundary (or past the end).  This is
Rust's `&s[..n]`, whose failure case is a panic. -/
def takeBytes : List Char → Nat → Option (List Char)
  | _, 0 => some []
  | [], _ + 1 => none
  | c :: cs, n + 1 =>
    if c.utf8Size ≤ n + 1 then
      (takeBytes cs (n + 1 - c.utf8Size)).map (fun ds => c :: ds)
    else none

/-- Rust byte-slice `&s[..n]` as a total function: `none` models the
panic on a non-boundary index. -/
def rustByteTake (s : String) (n : Nat) : Option String :=
  (takeBytes s.data n).map (fun cs => String.mk cs)

/-- Map a fallible renderer over a list, failing if any element fails
(the panic of the first failing iteration aborts the whole loop). -/
def optionMapList {α β : Type} (f : α → Option β) : List α → Option (List β)
  | [] => some []
  | a :: as =>
    match f a, optionMapList f as with
    | some b, some bs => some (b :: bs)
    | _, _ => none

namespace ProviderManager

/-- One provider's block in the listing (`provider.rs` lines 17-31):
marker + name, API URL, masked token (`&token[..min(len,8)]` — a byte
slice, hence fallible), and the "(currently active)" tag. -/
def renderProvider (cur : Option String) (name : String) (p : Provider) :
    Option (List String) :=
  match rustByteTake p.token (min p.token.utf8ByteSize 8) with
  | none => none
  | some pre =>
    some (((if cur == some name then "  ● " ++ name else "  ○ " ++ name) ::
      ("    API URL: " ++ p.api_url) ::
      ("    Token: " ++ pre ++ "****") ::
      (if cur == some name then ["    (currently active)"] else [])) ++ [""])

/-- `ProviderManager::list_providers` (`provider.rs` lines 8-35).  `none`
models the panic of the token byte-slice. -/
def list_providers (c : Config) : Option (List String) :=
  if c.providers.isEmpty then
    some ["No service providers configured"]
  else
    (optionMapList (fun e => renderProvider c.current_provider e.1 e.2) c.providers).map
      (fun blocks => "Configured service providers:" :: "" :: blocks.flatten)

/-- `ProviderManager::add_provider` (`provider.rs` lines 37-47): warn on
overwrite, mutate, save (propagating failure), report success. -/
def add_provider (c : Config) (env : Env) (name api_url token : String)
    (saveOk : Bool) : Except Unit OpResult :=
  let warn : List String :=
    if c.containsKey name then
      ["⚠️ Service provider \x27" ++ name ++ "\x27 already exists, overwriting"]
    else []
  let c2 := c.add_provider name api_url token
  if saveOk then
    .ok ⟨c2, warn ++ ["✅ Successfully added service provider \x27" ++ name ++ "\x27"],
         [], 1, env⟩
  else .error ()

/-- `ProviderManager::remove_provider` (`provider.rs` lines 49-60):
unknown name is a notice plus success; otherwise delete, save, report. -/
def remove_provider (c : Config) (env : Env) (name : String) (saveOk : Bool) :
    Except Unit OpResult :=
  if c.containsKey name = false then
    .ok ⟨c, ["❌ Service provider \x27" ++ name ++ "\x27 does not exist"], [], 0, env⟩
  else
    let c2 := c.remove_provider name
    if saveOk then
      .ok ⟨c2, ["🗑️ Successfully removed service provider \x27" ++ name ++ "\x27"],
           [], 1, env⟩
    else .error ()

/-- `ProviderManager::set_environment_variables` (`provider.rs` lines
91-101): set both variables in the current process, then print the two
`export` lines. -/
def set_environment_variables (p : Provider) (env : Env) : Env × List String :=
  (⟨some p.token, some p.api_url⟩,
   ["export ANTHROPIC_AUTH_TOKEN=\"" ++ p.token ++ "\"",
    "export ANTHROPIC_BASE_URL=\"" ++ p.api_url ++ "\""])

/-- `ProviderManager::use_provider` (`provider.rs` lines 62-89): existence
check, already-active check, then mutate, save, report, and set/export the
environment variables. -/
def use_provider (c : Config) (env : Env) (name : String) (saveOk : Bool) :
    Except Unit OpResult :=
  if c.containsKey name = false then
    .ok ⟨c, ["❌ Service provider \x27" ++ name ++ "\x27 does not exist"], [], 0, env⟩
  else if c.current_provider == some name then
    .ok ⟨c, ["ℹ️ Already using service provider \x27" ++ name ++ "\x27"], [], 0, env⟩
  else
    match c.getProvider name with
    | none =>
      -- unreachable: the containsKey guard makes the Rust `.unwrap()` succeed
      .ok ⟨c, [], [], 0, env⟩
    | some provider =>
      let c2 := c.set_current_provider name
      if saveOk then
        let ev := set_environment_variables provider env
        .ok ⟨c2,
             (("🔄 Switched to service provider \x27" ++ name ++ "\x27") ::
              ("  API URL: " ++ provider.api_url) ::
              "" ::
              "💡 To take effect in current terminal, run:" :: []) ++ ev.2,
             [], 1, ev.1⟩
      else .error ()

/-- `ProviderManager::use_provider_eval` (`provider.rs` lines 103-119):
unknown name goes to the error stream only; success mutates, saves and
prints exactly the two `export` lines.  The process environment is not
touched. -/
def use_provider_eval (c : Config) (env : Env) (name : String) (saveOk : Bool) :
    Except Unit OpResult :=
  if c.containsKey name = false then
    .ok ⟨c, [], ["# Error: Service provider \x27" ++ name ++ "\x27 does not exist"],
         0, env⟩
  else
    match c.getProvider name with
    | none =>
      -- unreachable: the containsKey guard makes the Rust `.unwrap()` succeed
      .ok ⟨c, [], [], 0, env⟩
    | some provider =>
      if saveOk then
        .ok ⟨c.set_current_provider name,
             ["export ANTHROPIC_AUTH_TOKEN=\"" ++ provider.token ++ "\"",
              "export ANTHROPIC_BASE_URL=\"" ++ provider.api_url ++ "\""],
             [], 1, env⟩
      else .error ()

end ProviderManager

/-- The drift-check masking of the live token (`provider.rs` lines
133-137): first 8 bytes plus `****` when longer than 8 bytes (a fallible
byte slice), else just `****`. -/
def maskKey (key : String) : Option String :=
  if 8 < key.utf8ByteSize then
    (rustByteTake key 8).map (fun pre => pre ++ "****")
  else some "****"

/-- The `ANTHROPIC_AUTH_TOKEN` report line of the drift check
(`provider.rs` lines 131-143); fallible through `maskKey`. -/
def keyLine (env : Env) : Option String :=
  match env.anthropic_auth_token with
  | some key => (maskKey key).map (fun m => "  ANTHROPIC_AUTH_TOKEN: " ++ m)
  | none => some "  ANTHROPIC_AUTH_TOKEN: Not set"

/-- The `ANTHROPIC_BASE_URL` report line of the drift check
(`provider.rs` lines 145-152). -/
def urlLine (env : Env) : String :=
  match env.anthropic_base_url with
  | some url => "  ANTHROPIC_BASE_URL: " ++ url
  | none => "  ANTHROPIC_BASE_URL: Not set"

/-- The configuration-status block of the drift check (`provider.rs`
lines 156-188): three mutually exclusive states, the found-provider state
comparing both live variables against the stored provider by exact
equality. -/
def statusLines (c : Config) (env : Env) : List String :=
  match c.current_provider with
  | some cp =>
    match c.getProvider cp with
    | some provider =>
      let env_matches :=
        match env.anthropic_auth_token, env.anthropic_base_url with
        | some k, some u => k == provider.token && u == provider.api_url
        | _, _ => false
      ("CCE configuration status:" ::
       ("  Current provider: " ++ cp) ::
       ("  Configured URL: " ++ provider.api_url) :: []) ++
      (if env_matches then
        ["  Status: ✅ Environment variables match configuration"]
      else
        ["  Status: ⚠️ Environment variables do not match configuration",
         "  Suggestion: Run \x27cce use " ++ (cp ++ "\x27 to reset")])
    | none => ["❌ Configuration error: Current provider does not exist"]
  | none =>
    ("CCE configuration status:" :: "  Current provider: None selected" :: []) ++
    (if c.providers.isEmpty then
      ["  Suggestion: Use \x27cce add\x27 to add a service provider"]
    else
      ["  Suggestion: Use \x27cce use <provider-name>\x27 to select a provider"])

/-- `ProviderManager::check_environment` (`provider.rs` lines 122-191):
header, live-variable report (fallible through the token mask), then the
configuration-status block.  `none` models the masking panic. -/
def check_environment (c : Config) (env : Env) : Option (List String) :=
  (keyLine env).map (fun kl =>
    ("🔍 Checking environment variable status" :: "" ::
     "Current environment variables:" :: kl :: urlLine env :: "" :: []) ++
    statusLines c env)

end CCE

namespace CCE

/-! ## Helper lemmas -/

/-- A string with a fixed head appended to anything differs from a fixed
string whose corresponding head differs. -/
theorem append_ne_of_take (p m c : String)
    (h : c.data.take p.data.length ≠ p.data) : p ++ m ≠ c := by
  intro he
  apply h
  rw [← he, String.data_append, List.take_left]

theorem containsKey_of_getProvider (c : Config) (n : String) (p : Provider)
    (h : c.getProvider n = some p) : c.containsKey n = true := by
  unfold Config.getProvider at h
  cases hf : c.providers.find? (fun e => e.1 == n) with
  | none => rw [hf] at h; cases h
  | some e =>
    have hp := List.find?_some (p := fun x => x.1 == n) (a := e) hf
    exact List.any_eq_true.mpr ⟨e, List.mem_of_find?_eq_some hf, hp⟩

theorem getProvider_isSome_of_containsKey (c : Config) (n : String)
    (h : c.containsKey n = true) : ∃ p, c.getProvider n = some p := by
  cases hf : c.providers.find? (fun e => e.1 == n) with
  | none =>
    obtain ⟨e, hmem, hpred⟩ := List.any_eq_true.mp h
    exact absurd hpred (List.find?_eq_none.mp hf e hmem)
  | some e =>
    exact ⟨e.2, by unfold Config.getProvider; rw [hf]; rfl⟩

end CCE

deriving instance DecidableEq for Except

namespace CCE

/-! ## Claims -/

/-- C10: the spec promises no panics for expected inputs and total token
masking, but the code byte-slices tokens at index min(8, byte-length):
on the nine-byte token "あああ" (three three-byte characters) index 8 is
not a character boundary, so both the listing and the drift check panic
(modelled as `none`). -/
theorem token_mask_panics_at_multibyte :
    ProviderManager.list_providers ⟨[("p", ⟨"https://x", "あああ"⟩)], none⟩ = none ∧
    check_environment ⟨[], none⟩ ⟨some "あああ", none⟩ = none := by
  decide

/-- C2: the eval-mode switch on an unknown name writes nothing to standard
output, writes one diagnostic line starting with "# Error:" to the error
stream, leaves the configuration unmutated, performs no save, and returns
success (never a propagated failure, whatever the store would do). -/
theorem use_provider_eval_unknown
    (c : Config) (env : Env) (n : String) (saveOk : Bool)
    (h : c.containsKey n = false) :
    ∃ rest, ProviderManager.use_provider_eval c env n saveOk =
      .ok ⟨c, [], ["# Error:" ++ rest], 0, env⟩ := by
  refine ⟨" Service provider \x27" ++ (n ++ "\x27 does not exist"), ?_⟩
  unfold ProviderManager.use_provider_eval
  rw [h]
  have hsplit : ("# Error: Service provider \x27" : String) =
      "# Error:" ++ " Service provider \x27" := by decide
  rw [hsplit, String.append_assoc, String.append_assoc]
  simp

theorem use_provider_eval_unknown_witness :
    ∃ rest, ProviderManager.use_provider_eval ⟨[], none⟩ ⟨none, none⟩ "z" true =
      .ok ⟨⟨[], none⟩, [], ["# Error:" ++ rest], 0, ⟨none, none⟩⟩ :=
  use_provider_eval_unknown ⟨[], none⟩ ⟨none, none⟩ "z" true (by decide)

/-- C8: removing an unknown name is a no-op reporting "does not exist":
configuration unchanged, no save, success-style return. -/
theorem remove_provider_unknown_noop
    (c : Config) (env : Env) (n : String) (saveOk : Bool)
    (h : c.containsKey n = false) :
    ProviderManager.remove_provider c env n saveOk =
      .ok ⟨c, ["❌ Service provider \x27" ++ n ++ "\x27 does not exist"], [], 0, env⟩ := by
  unfold ProviderManager.remove_provider
  rw [h]
  simp

theorem remove_provider_unknown_noop_witness :
    ProviderManager.remove_provider ⟨[], some "a"⟩ ⟨none, none⟩ "z" false =
      .ok ⟨⟨[], some "a"⟩, ["❌ Service provider \x27z\x27 does not exist"], [], 0,
           ⟨none, none⟩⟩ :=
  remove_provider_unknown_noop ⟨[], some "a"⟩ ⟨none, none⟩ "z" false (by decide)

/-- C3 counterexample: a configuration whose `current_provider` names a
provider absent from the registry ("x" dangling).  Interactive switch to
"x" is a no-op, but it reports "does not exist", not the "already using"
notice the claim requires for every configuration with
`current_provider = Some(n)`. -/
theorem use_provider_dangling_active_cex :
    ProviderManager.use_provider ⟨[], some "x"⟩ ⟨none, none⟩ "x" true =
      .ok ⟨⟨[], some "x"⟩, ["❌ Service provider \x27x\x27 does not exist"], [], 0,
           ⟨none, none⟩⟩ ∧
    "ℹ️ Already using service provider \x27x\x27" ∉
      ["❌ Service provider \x27x\x27 does not exist"] := by
  decide

/-- C3 (amended): if `current_provider = Some(n)` AND `n` is present in
the registry, interactive switch to `n` is a no-op: it reports "already
using", changes nothing, saves nothing, and emits no export lines. -/
theorem use_provider_already_active
    (c : Config) (env : Env) (n : String) (saveOk : Bool)
    (hmem : c.containsKey n = true) (hcur : c.current_provider = some n) :
    ProviderManager.use_provider c env n saveOk =
      .ok ⟨c, ["ℹ️ Already using service provider \x27" ++ n ++ "\x27"], [], 0, env⟩ := by
  unfold ProviderManager.use_provider
  rw [hmem, hcur]
  simp

theorem use_provider_already_active_witness :
    ProviderManager.use_provider ⟨[("a", ⟨"u", "t"⟩)], some "a"⟩ ⟨none, none⟩ "a" false =
      .ok ⟨⟨[("a", ⟨"u", "t"⟩)], some "a"⟩,
           ["ℹ️ Already using service provider \x27a\x27"], [], 0, ⟨none, none⟩⟩ :=
  use_provider_already_active ⟨[("a", ⟨"u", "t"⟩)], some "a"⟩ ⟨none, none⟩ "a" false
    (by decide) rfl

end CCE

namespace CCE

/-- C4 counterexample: a successful eval-mode switch (a "switch" per the
spec's interface section, which says both variables are written for the
current process on switch) sets `current_provider` and prints the export
lines but leaves both process environment variables unset, not equal to
the stored token and URL. -/
theorem use_provider_eval_no_env_write_cex :
    ProviderManager.use_provider_eval ⟨[("p", ⟨"https://x", "tok"⟩)], none⟩
        ⟨none, none⟩ "p" true =
      .ok ⟨⟨[("p", ⟨"https://x", "tok"⟩)], some "p"⟩,
           ["export ANTHROPIC_AUTH_TOKEN=\"tok\"", "export ANTHROPIC_BASE_URL=\"https://x\""],
           [], 1, ⟨none, none⟩⟩ ∧
    (none : Option String) ≠ some "tok" := by
  decide

/-- C4 (amended): after a successful INTERACTIVE switch to a name whose
provider is stored (and which is not already active), `current_provider`
equals that name and both process environment variables equal the stored
token and URL; eval mode updates `current_provider` but not the process
environment. -/
theorem use_provider_switch_sets_env
    (c : Config) (env : Env) (n : String) (p : Provider)
    (hget : c.getProvider n = some p) (hcur : ¬ c.current_provider = some n) :
    ∃ r, ProviderManager.use_provider c env n true = .ok r ∧
      r.config.current_provider = some n ∧
      r.env.anthropic_auth_token = some p.token ∧
      r.env.anthropic_base_url = some p.api_url ∧
      r.saves = 1 := by
  have hmem := containsKey_of_getProvider c n p hget
  have hbeq : (c.current_provider == some n) = false := by
    simpa using hcur
  unfold ProviderManager.use_provider
  rw [hmem, hbeq, hget]
  simp [ProviderManager.set_environment_variables, Config.set_current_provider]

theorem use_provider_switch_sets_env_witness :
    ∃ r, ProviderManager.use_provider ⟨[("p", ⟨"https://x", "tok"⟩)], none⟩
        ⟨none, none⟩ "p" true = .ok r ∧
      r.config.current_provider = some "p" ∧
      r.env.anthropic_auth_token = some (Provider.mk "https://x" "tok").token ∧
      r.env.anthropic_base_url = some (Provider.mk "https://x" "tok").api_url ∧
      r.saves = 1 :=
  use_provider_switch_sets_env ⟨[("p", ⟨"https://x", "tok"⟩)], none⟩ ⟨none, none⟩ "p"
    ⟨"https://x", "tok"⟩ (by decide) (by decide)

/-- C9: on a successful switch the interactive and eval-mode variants
emit exactly the same two export lines, in the same order, with the
stored token and URL substituted (the interactive variant after its four
decorative lines). -/
theorem export_lines_identical
    (c : Config) (env env2 : Env) (n : String) (p : Provider)
    (hget : c.getProvider n = some p) (hcur : ¬ c.current_provider = some n) :
    ∃ r1 r2, ProviderManager.use_provider c env n true = .ok r1 ∧
      ProviderManager.use_provider_eval c env2 n true = .ok r2 ∧
      r2.stdout = ["export ANTHROPIC_AUTH_TOKEN=\"" ++ p.token ++ "\"",
                   "export ANTHROPIC_BASE_URL=\"" ++ p.api_url ++ "\""] ∧
      r1.stdout.drop 4 = r2.stdout := by
  have hmem := containsKey_of_getProvider c n p hget
  have hbeq : (c.current_provider == some n) = false := by
    simpa using hcur
  unfold ProviderManager.use_provider ProviderManager.use_provider_eval
  rw [hmem, hbeq, hget]
  simp [ProviderManager.set_environment_variables]

theorem export_lines_identical_witness :
    ∃ r1 r2, ProviderManager.use_provider ⟨[("p", ⟨"https://x", "tok"⟩)], none⟩
        ⟨none, none⟩ "p" true = .ok r1 ∧
      ProviderManager.use_provider_eval ⟨[("p", ⟨"https://x", "tok"⟩)], none⟩
        ⟨some "o", none⟩ "p" true = .ok r2 ∧
      r2.stdout = ["export ANTHROPIC_AUTH_TOKEN=\"" ++ (Provider.mk "https://x" "tok").token ++ "\"",
                   "export ANTHROPIC_BASE_URL=\"" ++ (Provider.mk "https://x" "tok").api_url ++ "\""] ∧
      r1.stdout.drop 4 = r2.stdout :=
  export_lines_identical ⟨[("p", ⟨"https://x", "tok"⟩)], none⟩ ⟨none, none⟩
    ⟨some "o", none⟩ "p" ⟨"https://x", "tok"⟩ (by decide) (by decide)

end CCE

namespace CCE

/-! ## Drift-check output characterization -/

theorem check_environment_out (c : Config) (env : Env) (out : List String)
    (hout : check_environment c env = some out) :
    ∃ kl, keyLine env = some kl ∧
      out = "🔍 Checking environment variable status" :: "" ::
        "Current environment variables:" :: kl :: urlLine env :: "" ::
        statusLines c env := by
  unfold check_environment at hout
  cases hk : keyLine env with
  | none => rw [hk] at hout; cases hout
  | some kl =>
    rw [hk] at hout
    simp at hout
    exact ⟨kl, rfl, hout.symm⟩

theorem keyLine_shape (env : Env) (kl : String) (h : keyLine env = some kl) :
    kl = "  ANTHROPIC_AUTH_TOKEN: Not set" ∨
    ∃ m, kl = "  ANTHROPIC_AUTH_TOKEN: " ++ m := by
  obtain ⟨tok, url⟩ := env
  cases tok with
  | none =>
    simp [keyLine] at h
    exact Or.inl h.symm
  | some key =>
    simp [keyLine] at h
    obtain ⟨m, hm, hkl⟩ := h
    exact Or.inr ⟨m, hkl.symm⟩

theorem urlLine_shape (env : Env) :
    urlLine env = "  ANTHROPIC_BASE_URL: Not set" ∨
    ∃ u, urlLine env = "  ANTHROPIC_BASE_URL: " ++ u := by
  obtain ⟨tok, url⟩ := env
  cases url with
  | none => exact Or.inl rfl
  | some u => exact Or.inr ⟨u, rfl⟩

theorem statusLines_found (c : Config) (env : Env) (n : String) (p : Provider)
    (hcur : c.current_provider = some n) (hget : c.getProvider n = some p) :
    statusLines c env =
      "CCE configuration status:" :: ("  Current provider: " ++ n) ::
      ("  Configured URL: " ++ p.api_url) ::
      (if env.anthropic_auth_token = some p.token ∧
          env.anthropic_base_url = some p.api_url
       then ["  Status: ✅ Environment variables match configuration"]
       else ["  Status: ⚠️ Environment variables do not match configuration",
             "  Suggestion: Run \x27cce use " ++ (n ++ "\x27 to reset")]) := by
  obtain ⟨provs, cur⟩ := c
  simp only [Config.current_provider] at hcur
  subst hcur
  obtain ⟨tok, url⟩ := env
  cases tok with
  | none => simp [statusLines, hget]
  | some k =>
    cases url with
    | none => simp [statusLines, hget]
    | some u =>
      by_cases h1 : k = p.token <;> by_cases h2 : u = p.api_url <;>
        simp [statusLines, hget, h1, h2]

end CCE

namespace CCE

/-- C1: with an active provider that exists in the registry, the drift
check reports the match status exactly when both live environment
variables are present and equal, character for character, to the stored
token and URL; in every other case it reports the mismatch status and
suggests re-running the switch for that provider. -/
theorem check_environment_match_iff
    (c : Config) (env : Env) (n : String) (p : Provider) (out : List String)
    (hcur : c.current_provider = some n)
    (hget : c.getProvider n = some p)
    (hout : check_environment c env = some out) :
    (("  Status: ✅ Environment variables match configuration") ∈ out ↔
      (env.anthropic_auth_token = some p.token ∧
       env.anthropic_base_url = some p.api_url)) ∧
    (¬ (env.anthropic_auth_token = some p.token ∧
        env.anthropic_base_url = some p.api_url) →
      ("  Status: ⚠️ Environment variables do not match configuration") ∈ out ∧
      ("  Suggestion: Run \x27cce use " ++ (n ++ "\x27 to reset")) ∈ out) := by
  obtain ⟨kl, hkl, hshape⟩ := check_environment_out c env out hout
  subst hshape
  rw [statusLines_found c env n p hcur hget]
  by_cases hc : env.anthropic_auth_token = some p.token ∧
      env.anthropic_base_url = some p.api_url
  · rw [if_pos hc]
    exact ⟨⟨fun _ => hc, fun _ => by simp⟩, fun hnc => absurd hc hnc⟩
  · rw [if_neg hc]
    refine ⟨⟨?_, fun h => absurd h hc⟩, fun _ => ⟨by simp, by simp⟩⟩
    intro hmem
    exfalso
    simp only [List.mem_cons, List.not_mem_nil, or_false] at hmem
    rcases hmem with h|h|h|h|h|h|h|h|h|h|h
    · exact absurd h (by decide)
    · exact absurd h (by decide)
    · exact absurd h (by decide)
    · rcases keyLine_shape env kl hkl with hk | ⟨m, hk⟩
      · rw [hk] at h; exact absurd h (by decide)
      · rw [hk] at h; exact append_ne_of_take _ _ _ (by decide) h.symm
    · rcases urlLine_shape env with hu | ⟨u, hu⟩
      · rw [hu] at h; exact absurd h (by decide)
      · rw [hu] at h; exact append_ne_of_take _ _ _ (by decide) h.symm
    · exact absurd h (by decide)
    · exact absurd h (by decide)
    · exact append_ne_of_take _ _ _ (by decide) h.symm
    · exact append_ne_of_take _ _ _ (by decide) h.symm
    · exact absurd h (by decide)
    · exact append_ne_of_take _ _ _ (by decide) h.symm

end CCE

namespace CCE

theorem check_environment_match_iff_witness :
    (("  Status: ✅ Environment variables match configuration") ∈
        ["🔍 Checking environment variable status", "",
         "Current environment variables:", "  ANTHROPIC_AUTH_TOKEN: ****",
         "  ANTHROPIC_BASE_URL: https://x", "", "CCE configuration status:",
         "  Current provider: p", "  Configured URL: https://x",
         "  Status: ✅ Environment variables match configuration"] ↔
      ((⟨some "tok", some "https://x"⟩ : Env).anthropic_auth_token =
          some (Provider.mk "https://x" "tok").token ∧
       (⟨some "tok", some "https://x"⟩ : Env).anthropic_base_url =
          some (Provider.mk "https://x" "tok").api_url)) ∧
    (¬ ((⟨some "tok", some "https://x"⟩ : Env).anthropic_auth_token =
          some (Provider.mk "https://x" "tok").token ∧
        (⟨some "tok", some "https://x"⟩ : Env).anthropic_base_url =
          some (Provider.mk "https://x" "tok").api_url) →
      ("  Status: ⚠️ Environment variables do not match configuration") ∈
        ["🔍 Checking environment variable status", "",
         "Current environment variables:", "  ANTHROPIC_AUTH_TOKEN: ****",
         "  ANTHROPIC_BASE_URL: https://x", "", "CCE configuration status:",
         "  Current provider: p", "  Configured URL: https://x",
         "  Status: ✅ Environment variables match configuration"] ∧
      ("  Suggestion: Run \x27cce use " ++ ("p" ++ "\x27 to reset")) ∈
        ["🔍 Checking environment variable status", "",
         "Current environment variables:", "  ANTHROPIC_AUTH_TOKEN: ****",
         "  ANTHROPIC_BASE_URL: https://x", "", "CCE configuration status:",
         "  Current provider: p", "  Configured URL: https://x",
         "  Status: ✅ Environment variables match configuration"]) :=
  check_environment_match_iff ⟨[("p", ⟨"https://x", "tok"⟩)], some "p"⟩
    ⟨some "tok", some "https://x"⟩ "p" ⟨"https://x", "tok"⟩ _ rfl (by decide) (by decide)

theorem containsKey_remove_self (c : Config) (n : String) :
    (c.remove_provider n).containsKey n = false := by
  simp only [Config.remove_provider, Config.containsKey]
  rw [List.any_eq_false]
  intro a ha
  have := (List.mem_filter.mp ha).2
  simpa using this

theorem getProvider_remove_self (c : Config) (n : String) :
    (c.remove_provider n).getProvider n = none := by
  simp only [Config.remove_provider, Config.getProvider]
  rw [List.find?_eq_none.mpr]
  · rfl
  · intro a ha
    have := (List.mem_filter.mp ha).2
    simpa using this

theorem statusLines_dangling (c : Config) (env : Env) (n : String)
    (hcur : c.current_provider = some n) (hget : c.getProvider n = none) :
    statusLines c env = ["❌ Configuration error: Current provider does not exist"] := by
  obtain ⟨provs, cur⟩ := c
  simp only [Config.current_provider] at hcur
  subst hcur
  simp [statusLines, hget]

/-- C5: removing the provider named by `current_provider` deletes exactly
that registry entry and leaves `current_provider` pointing at the removed
name; the drift check on the resulting configuration reports the distinct
configuration-error state, not "None selected" and not the generic
mismatch. -/
theorem remove_active_dangling_check
    (c : Config) (env env2 : Env) (n : String) (out : List String) (r : OpResult)
    (hcur : c.current_provider = some n) (hmem : c.containsKey n = true)
    (hrm : ProviderManager.remove_provider c env n true = .ok r)
    (hchk : check_environment r.config env2 = some out) :
    r.config.current_provider = some n ∧
    r.config.providers = c.providers.filter (fun e => !(e.1 == n)) ∧
    r.config.containsKey n = false ∧
    ("❌ Configuration error: Current provider does not exist") ∈ out ∧
    ("  Current provider: None selected") ∉ out ∧
    ("  Status: ⚠️ Environment variables do not match configuration") ∉ out := by
  unfold ProviderManager.remove_provider at hrm
  rw [hmem] at hrm
  simp at hrm
  obtain rfl := hrm.symm
  have hcur2 : (c.remove_provider n).current_provider = some n := by
    simpa [Config.remove_provider] using hcur
  obtain ⟨kl, hkl, hshape⟩ := check_environment_out _ env2 out hchk
  subst hshape
  rw [statusLines_dangling _ env2 n hcur2 (getProvider_remove_self c n)]
  refine ⟨hcur2, rfl, containsKey_remove_self c n, by simp, ?_, ?_⟩
  · intro hmem2
    simp only [List.mem_cons, List.not_mem_nil, or_false] at hmem2
    rcases hmem2 with h|h|h|h|h|h|h
    · exact absurd h (by decide)
    · exact absurd h (by decide)
    · exact absurd h (by decide)
    · rcases keyLine_shape env2 kl hkl with hk | ⟨m, hk⟩
      · rw [hk] at h; exact absurd h (by decide)
      · rw [hk] at h; exact append_ne_of_take _ _ _ (by decide) h.symm
    · rcases urlLine_shape env2 with hu | ⟨u, hu⟩
      · rw [hu] at h; exact absurd h (by decide)
      · rw [hu] at h; exact append_ne_of_take _ _ _ (by decide) h.symm
    · exact absurd h (by decide)
    · exact absurd h (by decide)
  · intro hmem2
    simp only [List.mem_cons, List.not_mem_nil, or_false] at hmem2
    rcases hmem2 with h|h|h|h|h|h|h
    · exact absurd h (by decide)
    · exact absurd h (by decide)
    · exact absurd h (by decide)
    · rcases keyLine_shape env2 kl hkl with hk | ⟨m, hk⟩
      · rw [hk] at h; exact absurd h (by decide)
      · rw [hk] at h; exact append_ne_of_take _ _ _ (by decide) h.symm
    · rcases urlLine_shape env2 with hu | ⟨u, hu⟩
      · rw [hu] at h; exact absurd h (by decide)
      · rw [hu] at h; exact append_ne_of_take _ _ _ (by decide) h.symm
    · exact absurd h (by decide)
    · exact absurd h (by decide)

end CCE

namespace CCE

theorem remove_active_dangling_check_witness :
    (OpResult.mk ⟨[], some "p"⟩ ["🗑️ Successfully removed service provider \x27p\x27"]
        [] 1 ⟨none, none⟩).config.current_provider = some "p" ∧
    (OpResult.mk ⟨[], some "p"⟩ ["🗑️ Successfully removed service provider \x27p\x27"]
        [] 1 ⟨none, none⟩).config.providers =
      (Config.mk [("p", ⟨"u", "t"⟩)] (some "p")).providers.filter (fun e => !(e.1 == "p")) ∧
    (OpResult.mk ⟨[], some "p"⟩ ["🗑️ Successfully removed service provider \x27p\x27"]
        [] 1 ⟨none, none⟩).config.containsKey "p" = false ∧
    ("❌ Configuration error: Current provider does not exist") ∈
      ["🔍 Checking environment variable status", "", "Current environment variables:",
       "  ANTHROPIC_AUTH_TOKEN: Not set", "  ANTHROPIC_BASE_URL: Not set", "",
       "❌ Configuration error: Current provider does not exist"] ∧
    ("  Current provider: None selected") ∉
      ["🔍 Checking environment variable status", "", "Current environment variables:",
       "  ANTHROPIC_AUTH_TOKEN: Not set", "  ANTHROPIC_BASE_URL: Not set", "",
       "❌ Configuration error: Current provider does not exist"] ∧
    ("  Status: ⚠️ Environment variables do not match configuration") ∉
      ["🔍 Checking environment variable status", "", "Current environment variables:",
       "  ANTHROPIC_AUTH_TOKEN: Not set", "  ANTHROPIC_BASE_URL: Not set", "",
       "❌ Configuration error: Current provider does not exist"] :=
  remove_active_dangling_check ⟨[("p", ⟨"u", "t"⟩)], some "p"⟩ ⟨none, none⟩ ⟨none, none⟩
    "p" _ _ rfl (by decide) (by decide) (by decide)

theorem optionMapList_mem {α β : Type} (f : α → Option β) (l : List α) (bs : List β)
    (a : α) (ha : a ∈ l) (h : optionMapList f l = some bs) :
    ∃ b, f a = some b ∧ b ∈ bs := by
  induction ha generalizing bs with
  | head as =>
    unfold optionMapList at h
    cases hfx : f a <;> rw [hfx] at h
    · cases h
    · cases hrest : optionMapList f as <;> rw [hrest] at h
      · cases h
      · obtain rfl := (Option.some_inj.mp h).symm
        exact ⟨_, rfl, List.mem_cons_self _ _⟩
  | tail x hxs ih =>
    rename_i as
    unfold optionMapList at h
    cases hfx : f x <;> rw [hfx] at h
    · cases h
    · cases hrest : optionMapList f as <;> rw [hrest] at h
      · cases h
      · obtain rfl := (Option.some_inj.mp h).symm
        obtain ⟨b2, hb2, hmem2⟩ := ih _ hrest
        exact ⟨b2, hb2, List.mem_cons_of_mem _ hmem2⟩

/-- C6 counterexample: on the token "ééééé" (five two-byte characters,
ten UTF-8 bytes) the listing masks the first min(8, byte-length) = 8
BYTES, i.e. four characters, not the first min(8, 5) = 5 characters the
claim asks for: the claimed rendering is absent from the output and the
four-character rendering is present. -/
theorem list_providers_char_mask_cex :
    ("    Token: " ++ "ééééé".take (min 8 "ééééé".length) ++ "****") ∉
      (ProviderManager.list_providers ⟨[("p", ⟨"https://x", "ééééé"⟩)], none⟩).getD [] ∧
    ("    Token: éééé****") ∈
      (ProviderManager.list_providers ⟨[("p", ⟨"https://x", "ééééé"⟩)], none⟩).getD [] := by
  decide

/-- C6 (amended): whenever the listing completes (the byte slice at
min(8, byte-length) lands on a character boundary — otherwise it
panics), each provider's token is rendered as the first
min(8, UTF-8-byte-length) BYTES of the token followed by the fixed mask
suffix "****". -/
theorem list_providers_token_mask
    (c : Config) (name : String) (p : Provider) (L : List String)
    (hmem : (name, p) ∈ c.providers)
    (hL : ProviderManager.list_providers c = some L) :
    ∃ pre, rustByteTake p.token (min p.token.utf8ByteSize 8) = some pre ∧
      ("    Token: " ++ pre ++ "****") ∈ L := by
  unfold ProviderManager.list_providers at hL
  have hne : c.providers.isEmpty = false := by
    cases hp : c.providers with
    | nil => rw [hp] at hmem; cases hmem
    | cons a as => rfl
  rw [hne] at hL
  simp only [Bool.false_eq_true, if_false] at hL
  cases hopt : optionMapList
      (fun e => ProviderManager.renderProvider c.current_provider e.1 e.2)
      c.providers with
  | none => rw [hopt] at hL; cases hL
  | some blocks =>
    rw [hopt] at hL
    simp at hL
    obtain rfl := hL.symm
    obtain ⟨b, hb, hbmem⟩ := optionMapList_mem _ _ _ _ hmem hopt
    unfold ProviderManager.renderProvider at hb
    cases hslice : rustByteTake p.token (min p.token.utf8ByteSize 8) <;>
      rw [hslice] at hb
    · cases hb
    · obtain rfl := (Option.some_inj.mp hb).symm
      refine ⟨_, rfl, ?_⟩
      refine List.mem_cons_of_mem _ (List.mem_cons_of_mem _ ?_)
      refine List.mem_flatten.mpr ⟨_, hbmem, ?_⟩
      exact List.mem_append_left _
        (List.mem_cons_of_mem _ (List.mem_cons_of_mem _ (List.mem_cons_self _ _)))

end CCE

namespace CCE

theorem list_providers_token_mask_witness :
    ∃ pre, rustByteTake (Provider.mk "https://x" "tok1234567").token
        (min (Provider.mk "https://x" "tok1234567").token.utf8ByteSize 8) = some pre ∧
      ("    Token: " ++ pre ++ "****") ∈
        ["Configured service providers:", "", "  ○ p", "    API URL: https://x",
         "    Token: tok12345****", ""] :=
  list_providers_token_mask ⟨[("p", ⟨"https://x", "tok1234567"⟩)], none⟩ "p"
    ⟨"https://x", "tok1234567"⟩ _ (by decide) (by decide)

theorem find?_overwrite (l : List (String × Provider)) (name : String) (q : Provider)
    (h : l.any (fun e => e.1 == name) = true) :
    (l.map (fun e => if e.1 == name then (name, q) else e)).find?
      (fun e => e.1 == name) = some (name, q) := by
  induction l with
  | nil => cases h
  | cons a as ih =>
    rw [List.map_cons]
    by_cases ha : a.1 = name
    · have hfa : (if a.1 == name then (name, q) else a) = (name, q) := by simp [ha]
      rw [hfa, List.find?_cons_of_pos]
      simp
    · have hb : (a.1 == name) = false := by simp [ha]
      have hfa : (if a.1 == name then (name, q) else a) = a := by simp [hb]
      have h2 : as.any (fun e => e.1 == name) = true := by
        rw [List.any_cons] at h
        simpa [hb] using h
      rw [hfa, List.find?_cons_of_neg]
      · exact ih h2
      · simp [hb]

theorem keys_overwrite (l : List (String × Provider)) (name : String) (q : Provider) :
    (l.map (fun e => if e.1 == name then (name, q) else e)).map Prod.fst =
      l.map Prod.fst := by
  induction l with
  | nil => rfl
  | cons a as ih =>
    by_cases ha : a.1 = name
    · have hfa : (if a.1 == name then (name, q) else a) = (name, q) := by simp [ha]
      simp only [List.map_cons, hfa, ih]
      simp [ha]
    · have hfa : (if a.1 == name then (name, q) else a) = a := by simp [ha]
      simp only [List.map_cons, hfa, ih]

theorem find?_append_new (l : List (String × Provider)) (name : String) (q : Provider)
    (h : l.any (fun e => e.1 == name) = false) :
    (l ++ [(name, q)]).find? (fun e => e.1 == name) = some (name, q) := by
  have hnone : ∀ a ∈ l, ¬ (a.1 == name) = true := by
    intro a ha hx
    have := (List.any_eq_true (p := fun e => e.1 == name)).mpr ⟨a, ha, hx⟩
    rw [h] at this
    cases this
  rw [List.find?_append, List.find?_eq_none.mpr hnone]
  simp [List.find?]

/-- C7: the add operation always succeeds functionally (no URL or token
validation); an existing name is overwritten last-write-wins with a
warning surfaced to the caller; afterwards the registry maps the name to
exactly the new URL/token pair, the selection is untouched, and provider
names remain unique. -/
theorem add_provider_overwrite_unique
    (c : Config) (env : Env) (name api_url token : String)
    (hnd : (c.providers.map Prod.fst).Nodup) :
    ∃ r, ProviderManager.add_provider c env name api_url token true = .ok r ∧
      r.config.getProvider name = some ⟨api_url, token⟩ ∧
      (r.config.providers.map Prod.fst).Nodup ∧
      r.config.current_provider = c.current_provider ∧
      (c.containsKey name = true →
        ("⚠️ Service provider \x27" ++ name ++ "\x27 already exists, overwriting")
          ∈ r.stdout) ∧
      (c.containsKey name = false →
        r.stdout = ["✅ Successfully added service provider \x27" ++ name ++ "\x27"]) := by
  by_cases hk : c.containsKey name = true
  · refine ⟨⟨c.add_provider name api_url token,
        [("⚠️ Service provider \x27" ++ name ++ "\x27 already exists, overwriting"),
         ("✅ Successfully added service provider \x27" ++ name ++ "\x27")],
        [], 1, env⟩, ?_, ?_, ?_, ?_, fun _ => by simp, ?_⟩
    · unfold ProviderManager.add_provider
      simp [hk]
    · unfold Config.getProvider Config.add_provider
      rw [if_pos hk]
      have hk2 : c.providers.any (fun e => e.1 == name) = true := hk
      rw [find?_overwrite _ _ _ hk2]
      rfl
    · unfold Config.add_provider
      rw [if_pos hk]
      rw [keys_overwrite]
      exact hnd
    · unfold Config.add_provider
      rw [if_pos hk]
    · intro hkf
      rw [hk] at hkf
      cases hkf
  · have hkf : c.containsKey name = false := by simpa using hk
    refine ⟨⟨c.add_provider name api_url token,
        ["✅ Successfully added service provider \x27" ++ name ++ "\x27"],
        [], 1, env⟩, ?_, ?_, ?_, ?_, ?_, fun _ => rfl⟩
    · unfold ProviderManager.add_provider
      simp [hkf]
    · unfold Config.getProvider Config.add_provider
      rw [if_neg ?hneg]
      case hneg => rw [hkf]; exact Bool.false_ne_true
      have hk2 : c.providers.any (fun e => e.1 == name) = false := hkf
      rw [find?_append_new _ _ _ hk2]
      rfl
    · unfold Config.add_provider
      rw [if_neg ?hneg2]
      case hneg2 => rw [hkf]; exact Bool.false_ne_true
      have hnone : ∀ a ∈ c.providers, ¬ (a.1 == name) = true := by
        intro a ha hx
        have h3 : c.containsKey name = true := by
          unfold Config.containsKey
          exact (List.any_eq_true (p := fun e => e.1 == name)).mpr ⟨a, ha, hx⟩
        rw [hkf] at h3
        cases h3
      have hnk : name ∉ c.providers.map Prod.fst := by
        intro hmm
        obtain ⟨e, hel, he⟩ := List.mem_map.mp hmm
        exact hnone e hel (by simp [he])
      simp [List.map_append, List.nodup_append, hnd, hnk]
    · unfold Config.add_provider
      rw [if_neg ?hneg3]
      case hneg3 => rw [hkf]; exact Bool.false_ne_true
    · intro hkt
      rw [hkf] at hkt
      cases hkt

theorem add_provider_overwrite_unique_witness :
    ∃ r, ProviderManager.add_provider ⟨[], none⟩ ⟨none, none⟩ "acme" "https://x"
        "tok12345678" true = .ok r ∧
      r.config.getProvider "acme" = some ⟨"https://x", "tok12345678"⟩ ∧
      (r.config.providers.map Prod.fst).Nodup ∧
      r.config.current_provider = (Config.mk [] none).current_provider ∧
      ((Config.mk [] none).containsKey "acme" = true →
        ("⚠️ Service provider \x27" ++ "acme" ++ "\x27 already exists, overwriting")
          ∈ r.stdout) ∧
      ((Config.mk [] none).containsKey "acme" = false →
        r.stdout = ["✅ Successfully added service provider \x27" ++ "acme" ++ "\x27"]) :=
  add_provider_overwrite_unique ⟨[], none⟩ ⟨none, none⟩ "acme" "https://x"
    "tok12345678" (by simp)

end CCE
